import Mathlib

/-!
Verification of the planar-quadrotor differential-flatness controller
(src/controllers.py) against its natural-language specification.

The numeric code is shallowly embedded over the real numbers:
- 2-vectors (numpy arrays of shape (2,)) become pairs of reals;
- Python list/array indexing becomes Option-valued lookups, so an
  IndexError is the value none;
- a failed runtime assertion (Python assert) makes the function return
  none;
- the external root solver (scipy.optimize.root) is a parameter of the
  functions that call it, returning a success flag and a final iterate,
  mirroring scipy's OptimizeResult fields sol.success and sol.x;
- the external learned-correction model is a structure of the functions
  the source calls on self.learner.
-/

/-- Planar 2-vector, the embedding of a numpy array of shape (2,). -/
abbrev Vec2 : Type := ℝ × ℝ

/-- Dot product of two 2-vectors (numpy v.dot(w)). -/
def dot2 (v w : Vec2) : ℝ := v.1 * w.1 + v.2 * w.2

/-- Euclidean norm of a 2-vector (np.linalg.norm). -/
noncomputable def norm2 (v : Vec2) : ℝ := Real.sqrt (v.1 ^ 2 + v.2 ^ 2)

/-- A 2x2 real matrix stored as its two rows. -/
abbrev Mat2 : Type := Vec2 × Vec2

/-- Matrix-vector product for the row-pair representation. -/
def mat2_mulvec (A : Mat2) (v : Vec2) : Vec2 :=
  (A.1.1 * v.1 + A.1.2 * v.2, A.2.1 * v.1 + A.2.2 * v.2)

/-- Determinant of a 2x2 matrix in the row-pair representation. -/
def det2 (A : Mat2) : ℝ := A.1.1 * A.2.2 - A.1.2 * A.2.1

/-- Solution of a 2x2 linear system by Cramer's rule; this embeds
np.linalg.solve, which in the source is only reached after the rank-2
assertion, i.e. with a nonsingular matrix. -/
noncomputable def linalg_solve2 (A : Mat2) (b : Vec2) : Vec2 :=
  ((b.1 * A.2.2 - A.1.2 * b.2) / det2 A, (A.1.1 * b.2 - b.1 * A.2.1) / det2 A)

/-- Dynamics model collaborator: mass, inertia, gravity (self.model). -/
structure DynamicsModel where
  m : ℝ
  I : ℝ
  g : ℝ

/-- The skew matrix ((0, -1), (1, 0)) from the source (cross_mat). -/
def cross_mat : Mat2 := ((0, -1), (1, 0))

/-- FlatController.compute_theta: arcsin of minus the horizontal
component of the body-up direction. -/
noncomputable def compute_theta (z_body : Vec2) : ℝ := Real.arcsin (-z_body.1)

/-- FlatController.solve_for_scalar: v1^T A v2 (the source comment notes
A^{-1} = A^T for the orthogonal matrix it is used with). -/
def solve_for_scalar (v1 : Vec2) (A : Mat2) (v2 : Vec2) : ℝ :=
  dot2 v1 (mat2_mulvec A v2)

/-- Pure mathematical core of the nominal path of
FlatController.get_des_data (lines 105-127), once the desired
acceleration, jerk and snap have been read from the per-axis lists.
Returns (a_norm, theta, theta_vel, theta_acc). -/
noncomputable def nominal_core (g : ℝ) (a_des j_des s_des : Vec2) : ℝ × ℝ × ℝ × ℝ :=
  let acc_vec : Vec2 := (a_des.1 + 0, a_des.2 + g)
  let z_body : Vec2 := (acc_vec.1 / norm2 acc_vec, acc_vec.2 / norm2 acc_vec)
  let theta := compute_theta z_body
  let a_norm := norm2 acc_vec
  let a_norm_dot := dot2 j_des z_body
  let z_body_dot : Vec2 :=
    ((j_des.1 - a_norm_dot * z_body.1) / a_norm,
     (j_des.2 - a_norm_dot * z_body.2) / a_norm)
  let theta_vel := solve_for_scalar z_body_dot cross_mat z_body
  let a_norm_ddot := dot2 s_des z_body + dot2 j_des z_body_dot
  let z_body_ddot : Vec2 :=
    ((s_des.1 - a_norm_ddot * z_body.1 - 2 * a_norm_dot * z_body_dot.1) / a_norm,
     (s_des.2 - a_norm_ddot * z_body.2 - 2 * a_norm_dot * z_body_dot.2) / a_norm)
  let theta_acc := dot2 z_body_ddot (mat2_mulvec cross_mat z_body) +
    dot2 z_body_dot (mat2_mulvec cross_mat z_body_dot)
  (a_norm, theta, theta_vel, theta_acc)

/-- Reads of the desired-state lists performed by the nominal path of
get_des_data (lines 105-107), in the source's evaluation order:
x_des[2], z_des[2], x_des[3], z_des[3], x_des[4], z_des[4].  An
out-of-range read (Python IndexError) yields none. -/
def read_ajs (x_des z_des : List ℝ) : Option (Vec2 × Vec2 × Vec2) := do
  let ax ← x_des[2]?
  let az ← z_des[2]?
  let jx ← x_des[3]?
  let jz ← z_des[3]?
  let sx ← x_des[4]?
  let sz ← z_des[4]?
  pure ((ax, az), (jx, jz), (sx, sz))

/-- Nominal (learner-free) branch of FlatController.get_des_data
(lines 105-127). -/
noncomputable def get_des_data_nominal (g : ℝ) (x_des z_des : List ℝ) :
    Option (ℝ × ℝ × ℝ × ℝ) := do
  let (a_des, j_des, s_des) ← read_ajs x_des z_des
  pure (nominal_core g a_des j_des s_des)

/-- Embedding of the Python default argument z_des=np.zeros(4) of
get_des_data, get_des_data_corrected and get_des_data_corrected2:
a 4-element zero vector. -/
def default_z_des : List ℝ := [0, 0, 0, 0]

/-! Specification-side definitions for the nominal flat map, written
from the words of spec section 4.2 and claim C1, to be compared with the
source-side nominal_core. -/

/-- Following the spec: acc_vec = desired_acc + (0, gravity). -/
def spec_acc_vec (g : ℝ) (a : Vec2) : Vec2 := (a.1 + 0, a.2 + g)

/-- Following the spec: z_body = acc_vec / ||acc_vec||. -/
noncomputable def spec_z_body (g : ℝ) (a : Vec2) : Vec2 :=
  ((spec_acc_vec g a).1 / norm2 (spec_acc_vec g a),
   (spec_acc_vec g a).2 / norm2 (spec_acc_vec g a))

/-- Following the spec: angle = arcsin(-z_body[horizontal]). -/
noncomputable def spec_angle (g : ℝ) (a : Vec2) : ℝ :=
  Real.arcsin (-(spec_z_body g a).1)

/-- Rotation by 90 degrees, R(90) = ((cos 90, -sin 90), (sin 90, cos 90))
= ((0, -1), (1, 0)), as used by the spec's projection formulas. -/
def spec_R90 : Mat2 := ((0, -1), (1, 0))

/-- Following the spec: z_body_dot = (jerk - (jerk . z_body) z_body) / a_norm. -/
noncomputable def spec_z_body_dot (g : ℝ) (a j : Vec2) : Vec2 :=
  ((j.1 - dot2 j (spec_z_body g a) * (spec_z_body g a).1) / norm2 (spec_acc_vec g a),
   (j.2 - dot2 j (spec_z_body g a) * (spec_z_body g a).2) / norm2 (spec_acc_vec g a))

/-- Following the spec: angle_rate = z_body_dot^T R(90) z_body. -/
noncomputable def spec_angle_rate (g : ℝ) (a j : Vec2) : ℝ :=
  dot2 (spec_z_body_dot g a j) (mat2_mulvec spec_R90 (spec_z_body g a))

/-- Following the spec: second-order analogue of z_body_dot, the
differentiation chain of section 4.2 applied once more, using snap:
a_norm_ddot = snap . z_body + jerk . z_body_dot and
z_body_ddot = (snap - a_norm_ddot z_body - 2 a_norm_dot z_body_dot) / a_norm. -/
noncomputable def spec_z_body_ddot (g : ℝ) (a j s : Vec2) : Vec2 :=
  ((s.1 - (dot2 s (spec_z_body g a) + dot2 j (spec_z_body_dot g a j)) * (spec_z_body g a).1
      - 2 * dot2 j (spec_z_body g a) * (spec_z_body_dot g a j).1) / norm2 (spec_acc_vec g a),
   (s.2 - (dot2 s (spec_z_body g a) + dot2 j (spec_z_body_dot g a j)) * (spec_z_body g a).2
      - 2 * dot2 j (spec_z_body g a) * (spec_z_body_dot g a j).2) / norm2 (spec_acc_vec g a))

/-- Following the spec: angle_accel = z_body_ddot^T R(90) z_body
+ z_body_dot^T R(90) z_body_dot. -/
noncomputable def spec_angle_accel (g : ℝ) (a j s : Vec2) : ℝ :=
  dot2 (spec_z_body_ddot g a j s) (mat2_mulvec spec_R90 (spec_z_body g a)) +
  dot2 (spec_z_body_dot g a j) (mat2_mulvec spec_R90 (spec_z_body_dot g a j))

/-- Augmented state vector passed to the learner (6 entries:
x, z, theta, x_vel, z_vel, theta_vel placeholder). -/
abbrev X6 : Type := Fin 6 → ℝ

/-- Dot product of a learner state-derivative row with the 4-entry
d(state)/dt vector np.hstack((vel, acc)) used in compare_methods. -/
def dot4 (r v : Fin 4 → ℝ) : ℝ := ∑ i, r i * v i

/-- Contraction np.tensordot(H, v, axes=1).dot(v) of a 4x4 state Hessian
slice with the state rate, as in compare_methods. -/
def quad4 (H : Fin 4 → Fin 4 → ℝ) (v : Fin 4 → ℝ) : ℝ :=
  ∑ j, (∑ k, H j k * v k) * v j

/-- Learned correction model collaborator (self.learner), a structure of
the functions the source calls on it.  w is the trained weight object,
checked against None at the dispatch point.  The source calls predict
with two arguments (x_t, u_t) in compare_methods/get_des_data_corrected2
but with a single state argument in get_des_data_corrected; the latter
convention is modelled by the fields predict1, get_deriv_x,
get_deriv_x_vel, get_dderiv_x_x, get_dderiv_x_vel_x_vel.  The
state-derivative matrix is dotted with the 4-entry np.hstack((vel, acc))
in the source, so its rows are indexed by Fin 4. -/
structure Learner where
  w : Option (List ℝ)
  predict : X6 → Vec2 → Vec2
  get_deriv_u : X6 → Vec2 → Vec2
  get_deriv_theta : X6 → Vec2 → Vec2
  get_deriv_state : X6 → Vec2 → (Fin 4 → ℝ) × (Fin 4 → ℝ)
  get_dderiv_utheta : X6 → Vec2 → Vec2
  get_dderiv_u2 : X6 → Vec2 → Vec2
  get_dderiv_theta2 : X6 → Vec2 → Vec2
  get_dderiv_state : X6 → Vec2 → (Fin 4 → Fin 4 → ℝ) × (Fin 4 → Fin 4 → ℝ)
  predict1 : X6 → Vec2
  get_deriv_x : X6 → Mat2
  get_deriv_x_vel : X6 → Mat2
  get_dderiv_x_x : X6 → Vec2 → Vec2 → Vec2
  get_dderiv_x_vel_x_vel : X6 → Vec2 → Vec2 → Vec2

/-- Result of the external root finder: scipy's OptimizeResult restricted
to the fields the source reads (sol.success and sol.x). -/
structure RootResult where
  success : Bool
  x : ℝ × ℝ

/-- External root finder (scipy.optimize.root): takes the residual
function and the seed, returns a RootResult. -/
abbrev Solver : Type := ((ℝ × ℝ) → Vec2) → (ℝ × ℝ) → RootResult

/-- The sensitivity Jacobian df/d(u,theta) formed in compare_methods
(lines 65-66): base rigid-body columns (z, u*zp) plus the learner's
columns (dfm_du, dfm_dtheta). -/
noncomputable def dfdx_matrix (L : Learner) (u theta : ℝ) (x_t : X6) (u_t : Vec2) : Mat2 :=
  let z : Vec2 := (-Real.sin theta, Real.cos theta)
  let zp : Vec2 := (-Real.cos theta, -Real.sin theta)
  let dfm_du := L.get_deriv_u x_t u_t
  let dfm_dtheta := L.get_deriv_theta x_t u_t
  ((z.1 + dfm_du.1, u * zp.1 + dfm_dtheta.1),
   (z.2 + dfm_du.2, u * zp.2 + dfm_dtheta.2))

/-- Residual a = u * z - (0, g) + fm - acc checked by the first
assertion of compare_methods (lines 38-52). -/
noncomputable def cm_residual (L : Learner) (g u theta : ℝ) (pos vel acc : Vec2) : Vec2 :=
  let z : Vec2 := (-Real.sin theta, Real.cos theta)
  let x_t : X6 := ![pos.1, pos.2, theta, vel.1, vel.2, 0]
  let u_t : Vec2 := (u, 0)
  let fm := L.predict x_t u_t
  (u * z.1 - 0 + fm.1 - acc.1, u * z.2 - g + fm.2 - acc.2)

/-- Value computed by compare_methods once both assertions pass
(lines 57-99): first- and second-order implicit-function sensitivities,
of which the angle components (xdot[1], xddot[1]) are returned. -/
noncomputable def cm_derivatives (L : Learner) (u theta : ℝ)
    (vel acc jerk snap : Vec2) (x_t : X6) : ℝ × ℝ :=
  let u_t : Vec2 := (u, 0)
  let dstate : Fin 4 → ℝ := ![vel.1, vel.2, acc.1, acc.2]
  let ddstate : Fin 4 → ℝ := ![acc.1, acc.2, jerk.1, jerk.2]
  let dfm_dstate := L.get_deriv_state x_t u_t
  let dfdx := dfdx_matrix L u theta x_t u_t
  let dfdt : Vec2 :=
    (-jerk.1 + dot4 dfm_dstate.1 dstate, -jerk.2 + dot4 dfm_dstate.2 dstate)
  let xdot := linalg_solve2 dfdx (-dfdt.1, -dfdt.2)
  let d2fm_dudtheta := L.get_dderiv_utheta x_t u_t
  let d2fm_du2 := L.get_dderiv_u2 x_t u_t
  let d2fm_dtheta2 := L.get_dderiv_theta2 x_t u_t
  let d2fm_dstate2 := L.get_dderiv_state x_t u_t
  let q1 := (0 + d2fm_du2.1) * xdot.1 * xdot.1
          + (-Real.cos theta + d2fm_dudtheta.1) * xdot.2 * xdot.1
          + (-Real.cos theta + d2fm_dudtheta.1) * xdot.1 * xdot.2
          + (u * Real.sin theta + d2fm_dtheta2.1) * xdot.2 * xdot.2
  let q2 := (0 + d2fm_du2.2) * xdot.1 * xdot.1
          + (-Real.sin theta + d2fm_dudtheta.2) * xdot.2 * xdot.1
          + (-Real.sin theta + d2fm_dudtheta.2) * xdot.1 * xdot.2
          + (-u * Real.cos theta + d2fm_dtheta2.2) * xdot.2 * xdot.2
  let d2fdt2 : Vec2 :=
    (-snap.1 + dot4 dfm_dstate.1 ddstate + quad4 d2fm_dstate2.1 dstate,
     -snap.2 + dot4 dfm_dstate.2 ddstate + quad4 d2fm_dstate2.2 dstate)
  let xddot := linalg_solve2 dfdx (-d2fdt2.1 - q1, -d2fdt2.2 - q2)
  (xdot.2, xddot.2)

/-- FlatController.compare_methods (lines 37-99).  The two Python
assertions (np.allclose residual check with atol=1e-4 at line 52, and
matrix_rank(dfdx) == 2 at line 71, i.e. nonzero determinant for a 2x2
real matrix) are embedded as guards returning none on failure, since a
failed assert raises; the pure intermediate values are split into
cm_residual and cm_derivatives.  Returns (xdot[1], xddot[1])
= (theta_vel, theta_acc). -/
noncomputable def compare_methods (L : Learner) (g : ℝ) (u theta : ℝ)
    (pos vel acc jerk snap : Vec2) : Option (ℝ × ℝ) :=
  if |(cm_residual L g u theta pos vel acc).1| ≤ 1 / 10000 ∧
     |(cm_residual L g u theta pos vel acc).2| ≤ 1 / 10000 then
    if det2 (dfdx_matrix L u theta (![pos.1, pos.2, theta, vel.1, vel.2, 0]) (u, 0)) ≠ 0 then
      some (cm_derivatives L u theta vel acc jerk snap
        (![pos.1, pos.2, theta, vel.1, vel.2, 0]))
    else none
  else none

/-- Normalization of the solved angle into (-pi, pi] (lines 214-216):
Python theta %= 2*pi (remainder with the divisor's sign, so in
[0, 2*pi)), then subtract 2*pi when the result exceeds pi. -/
noncomputable def normalize_angle (theta : ℝ) : ℝ :=
  if theta - 2 * Real.pi * (⌊theta / (2 * Real.pi)⌋ : ℝ) > Real.pi
  then theta - 2 * Real.pi * (⌊theta / (2 * Real.pi)⌋ : ℝ) - 2 * Real.pi
  else theta - 2 * Real.pi * (⌊theta / (2 * Real.pi)⌋ : ℝ)

/-- Observable effect of lines 208-210: when the root finder reports no
convergence, the failure message is printed and input() blocks for the
operator; execution then resumes.  The report happens exactly when
sol.success is false. -/
def root_failure_reported (sol : RootResult) : Bool := !sol.success

/-- Reads of the desired-state lists performed by
get_des_data_corrected2 (lines 170-174), in the source's evaluation
order: x_des[0], z_des[0], x_des[1], z_des[1], ..., x_des[4], z_des[4]. -/
def read_pvajs (x_des z_des : List ℝ) :
    Option (Vec2 × Vec2 × Vec2 × Vec2 × Vec2) := do
  let px ← x_des[0]?
  let pz ← z_des[0]?
  let vx ← x_des[1]?
  let vz ← z_des[1]?
  let ax ← x_des[2]?
  let az ← z_des[2]?
  let jx ← x_des[3]?
  let jz ← z_des[3]?
  let sx ← x_des[4]?
  let sz ← z_des[4]?
  pure ((px, pz), (vx, vz), (ax, az), (jx, jz), (sx, sz))

/-- FlatController.get_des_data_corrected2 (lines 169-233): seed the root
finder with the nominal solution, solve the corrected force balance for
(thrust_norm, angle), normalize the angle, then recover theta_vel and
theta_acc through compare_methods.  Lines 208-210 print and block on
non-convergence but do not alter the data flow: sol.x is used
regardless (see root_failure_reported). -/
noncomputable def get_des_data_corrected2 (L : Learner) (g : ℝ) (solver : Solver)
    (x_des z_des : List ℝ) : Option (ℝ × ℝ × ℝ × ℝ) := do
  let (p_des, v_des, a_des, j_des, s_des) ← read_pvajs x_des z_des
  let acc_vec : Vec2 := (a_des.1 + 0, a_des.2 + g)
  let a_norm := norm2 acc_vec
  let z_body : Vec2 := (acc_vec.1 / norm2 acc_vec, acc_vec.2 / norm2 acc_vec)
  let theta := compute_theta z_body
  let opt_f : (ℝ × ℝ) → Vec2 := fun xv =>
    let u := xv.1
    let th := xv.2
    let x_t : X6 := ![p_des.1, p_des.2, th, v_des.1, v_des.2, 0]
    let u_t : Vec2 := (u, 0)
    let fm := L.predict x_t u_t
    (u * (-Real.sin th) - 0 + fm.1 - a_des.1,
     u * Real.cos th - g + fm.2 - a_des.2)
  let sol := solver opt_f (a_norm, theta)
  let a_norm2 := sol.x.1
  let theta2 := normalize_angle sol.x.2
  let tvta ← compare_methods L g a_norm2 theta2 p_des v_des a_des j_des s_des
  pure (a_norm2, theta2, tvta.1, tvta.2)

/-- FlatController.get_des_data_corrected (lines 129-167): the linearized
correction path.  List reads follow the source order (lines 130-133 read
velocity through snap, line 136 then reads x_des[0], z_des[0] for
nom_state). -/
noncomputable def get_des_data_corrected (L : Learner) (g : ℝ)
    (x_des z_des : List ℝ) : Option (ℝ × ℝ × ℝ × ℝ) := do
  let vx ← x_des[1]?
  let vz ← z_des[1]?
  let ax ← x_des[2]?
  let az ← z_des[2]?
  let jx ← x_des[3]?
  let jz ← z_des[3]?
  let sx ← x_des[4]?
  let sz ← z_des[4]?
  let px ← x_des[0]?
  let pz ← z_des[0]?
  let v_des : Vec2 := (vx, vz)
  let a_des : Vec2 := (ax, az)
  let j_des : Vec2 := (jx, jz)
  let s_des : Vec2 := (sx, sz)
  let nom_state : X6 := ![px, pz, 0, vx, vz, 0]
  let err := L.predict1 nom_state
  let dfdx := L.get_deriv_x nom_state
  let dfdx_vel := L.get_deriv_x_vel nom_state
  let dfdx2 := L.get_dderiv_x_x nom_state
  let dfdx_vel2 := L.get_dderiv_x_vel_x_vel nom_state
  let dfdt : Vec2 := mat2_mulvec dfdx v_des + mat2_mulvec dfdx_vel a_des
  let d2fdt2 : Vec2 := dfdx2 v_des v_des + mat2_mulvec dfdx a_des
    + dfdx_vel2 a_des a_des + mat2_mulvec dfdx_vel j_des
  let acc_vec : Vec2 := (a_des.1 + 0 - err.1, a_des.2 + g - err.2)
  let z_body : Vec2 := (acc_vec.1 / norm2 acc_vec, acc_vec.2 / norm2 acc_vec)
  let theta := compute_theta z_body
  let a_norm := norm2 acc_vec
  let a_norm_dot := dot2 (j_des - dfdt) z_body
  let z_body_dot : Vec2 :=
    ((j_des.1 - a_norm_dot * z_body.1 - dfdt.1) / a_norm,
     (j_des.2 - a_norm_dot * z_body.2 - dfdt.2) / a_norm)
  let theta_vel := solve_for_scalar z_body_dot cross_mat z_body
  let a_norm_ddot := dot2 (s_des - d2fdt2) z_body + dot2 (j_des - dfdt) z_body_dot
  let z_body_ddot : Vec2 :=
    ((s_des.1 - d2fdt2.1 - a_norm_ddot * z_body.1 - 2 * a_norm_dot * z_body_dot.1) / a_norm,
     (s_des.2 - d2fdt2.2 - a_norm_ddot * z_body.2 - 2 * a_norm_dot * z_body_dot.2) / a_norm)
  let theta_acc := dot2 z_body_ddot (mat2_mulvec cross_mat z_body) +
    dot2 z_body_dot (mat2_mulvec cross_mat z_body_dot)
  pure (a_norm, theta, theta_vel, theta_acc)

/-- PD feedback collaborator, constructed in FlatController.__init__
(line 28) and never used on the live path. -/
structure PD where
  P : ℝ
  D : ℝ
  K : ℝ × ℝ

/-- PD.__init__. -/
def PD.make (P D : ℝ) : PD := ⟨P, D, (P, D)⟩

/-- PD.output. -/
def PD.output (pd : PD) (value derivative desired_value desired_derivative : ℝ) : ℝ :=
  -pd.P * (value - desired_value) - pd.D * (derivative - desired_derivative)

/-- np.polyval: Horner evaluation of a highest-degree-first coefficient
list. -/
def polyval (p : List ℝ) (t : ℝ) : ℝ := p.foldl (fun acc c => acc * t + c) 0

/-- np.polyder of a highest-degree-first coefficient list: each retained
coefficient is multiplied by its degree; the derivative of a constant is
the singleton [0]. -/
def polyder (p : List ℝ) : List ℝ :=
  if p.length ≤ 1 then [0]
  else List.zipWith (fun (d : ℕ) (c : ℝ) => (d : ℝ) * c)
    ((List.range (p.length - 1)).map (fun i => p.length - 1 - i))
    (p.take (p.length - 1))

/-- The derivative chain built in FlatController.__init__ (lines 20-26):
the coefficient list followed by its first four np.polyder derivatives. -/
def make_polys (coeffs : List ℝ) : List (List ℝ) :=
  let p0 := coeffs
  let p1 := polyder p0
  let p2 := polyder p1
  let p3 := polyder p2
  let p4 := polyder p3
  [p0, p1, p2, p3, p4]

/-- FlatController state: dynamics model, per-axis derivative chains,
optional learner, and the PD object built in __init__. -/
structure FlatController where
  model : DynamicsModel
  x_polys : List (List ℝ)
  z_polys : List (List ℝ)
  learner : Option Learner
  pd : PD

/-- FlatController.__init__ (lines 16-28). -/
def FlatController.make (model : DynamicsModel) (x_poly_coeffs z_poly_coeffs : List ℝ)
    (learner : Option Learner) : FlatController :=
  ⟨model, make_polys x_poly_coeffs, make_polys z_poly_coeffs, learner, PD.make 10 10⟩

/-- FlatController.get_des_data (lines 101-127): dispatch to the
nonlinear-correction path when a learner with trained weights is
present (line 102: self.learner is not None and self.learner.w is not
None), otherwise the nominal path. -/
noncomputable def get_des_data (c : FlatController) (solver : Solver)
    (x_des z_des : List ℝ) : Option (ℝ × ℝ × ℝ × ℝ) :=
  match c.learner with
  | some L =>
      if L.w.isSome then get_des_data_corrected2 L c.model.g solver x_des z_des
      else get_des_data_nominal c.model.g x_des z_des
  | none => get_des_data_nominal c.model.g x_des z_des

/-- FlatController._compute (lines 235-244): closed-form thrust/torque
shortcut from the horizontal acceleration, jerk and snap. -/
noncomputable def _compute (m I g : ℝ) (x_des : List ℝ) : Option (ℝ × ℝ) := do
  let a ← x_des[2]?
  let j ← x_des[3]?
  let s ← x_des[4]?
  pure (m * Real.sqrt (g ^ 2 + a ^ 2),
        I * (-a ^ 2 * s * g - s * g ^ 3 + 2 * a * j ^ 2 * g) / (a ^ 2 + g ^ 2) ^ 2)

/-- FlatController.get_des (lines 246-247): evaluate all five derivative
polynomials of each axis at time t. -/
def get_des (c : FlatController) (t : ℝ) : List ℝ × List ℝ :=
  (c.x_polys.map (fun poly => polyval poly t),
   c.z_polys.map (fun poly => polyval poly t))

/-- FlatController.get_u (lines 249-256): the live code evaluates the
trajectory, runs get_des_data, and returns (m * a_norm, I * theta_acc);
the current-state argument x and the PD object are not consulted
(everything after the return on line 256 is commented out). -/
noncomputable def get_u (c : FlatController) (solver : Solver) (x : X6) (t : ℝ) :
    Option (ℝ × ℝ) :=
  let des := get_des c t
  (get_des_data c solver des.1 des.2).map
    (fun r => (c.model.m * r.1, c.model.I * r.2.2.2))

/-- Learner whose prediction and all derivatives are identically zero,
with a (trivial) trained weight object present. -/
def zeroLearner : Learner where
  w := some []
  predict := fun _ _ => (0, 0)
  get_deriv_u := fun _ _ => (0, 0)
  get_deriv_theta := fun _ _ => (0, 0)
  get_deriv_state := fun _ _ => (fun _ => 0, fun _ => 0)
  get_dderiv_utheta := fun _ _ => (0, 0)
  get_dderiv_u2 := fun _ _ => (0, 0)
  get_dderiv_theta2 := fun _ _ => (0, 0)
  get_dderiv_state := fun _ _ => (fun _ _ => 0, fun _ _ => 0)
  predict1 := fun _ => (0, 0)
  get_deriv_x := fun _ => ((0, 0), (0, 0))
  get_deriv_x_vel := fun _ => ((0, 0), (0, 0))
  get_dderiv_x_x := fun _ _ _ => (0, 0)
  get_dderiv_x_vel_x_vel := fun _ _ _ => (0, 0)

/-- The zero learner with no trained weights (w is None). -/
def zeroLearnerNoW : Learner := { zeroLearner with w := none }

/-- C1: Nominal-path flat-map recovery agrees with the closed-form
differentiation chain of spec section 4.2. -/
theorem C1_nominal_flat_map (g x0 x1 x2 x3 x4 z0 z1 z2 z3 z4 : ℝ)
    (h : spec_acc_vec g (x2, z2) ≠ (0, 0)) :
    get_des_data_nominal g [x0, x1, x2, x3, x4] [z0, z1, z2, z3, z4] =
      some (norm2 (spec_acc_vec g (x2, z2)),
            spec_angle g (x2, z2),
            spec_angle_rate g (x2, z2) (x3, z3),
            spec_angle_accel g (x2, z2) (x3, z3) (x4, z4)) := by
  simp [get_des_data_nominal, read_ajs, nominal_core, spec_angle, spec_angle_rate,
    spec_angle_accel, spec_z_body_ddot, spec_z_body_dot, spec_z_body, spec_acc_vec,
    compute_theta, solve_for_scalar, spec_R90, cross_mat]

/-- Trivial solver used to instantiate theorems at concrete inputs: it
reports success and returns the seed unchanged. -/
def idSolver : Solver := fun _ seed => ⟨true, seed⟩

/-- Solver that reports non-convergence and returns the iterate (1, 0),
used to exercise the failure branch of the root-finding path. -/
def failSolver : Solver := fun _ _ => ⟨false, (1, 0)⟩

/-- Helper: the normalization of lines 214-216 lands in (-pi, pi] and
shifts its input by an integer multiple of 2*pi. -/
lemma normalize_angle_spec (theta : ℝ) :
    normalize_angle theta ∈ Set.Ioc (-Real.pi) Real.pi ∧
    ∃ k : ℤ, normalize_angle theta = theta - 2 * Real.pi * (k : ℝ) := by
  have hpi := Real.pi_pos
  have h2pi : (0:ℝ) < 2 * Real.pi := by linarith
  have hfl := Int.floor_le (theta / (2 * Real.pi))
  have hfu := Int.lt_floor_add_one (theta / (2 * Real.pi))
  set nn : ℤ := ⌊theta / (2 * Real.pi)⌋ with hnn
  have hr0 : 0 ≤ theta - 2 * Real.pi * (nn : ℝ) := by
    have h := mul_le_mul_of_nonneg_left hfl h2pi.le
    rw [mul_div_cancel₀ _ (ne_of_gt h2pi)] at h
    linarith
  have hr1 : theta - 2 * Real.pi * (nn : ℝ) < 2 * Real.pi := by
    have h := mul_lt_mul_of_pos_left hfu h2pi
    rw [mul_div_cancel₀ _ (ne_of_gt h2pi)] at h
    ring_nf at h ⊢
    nlinarith
  constructor
  · unfold normalize_angle
    split_ifs with hgt
    · exact ⟨by linarith, by linarith⟩
    · exact ⟨by linarith, by linarith⟩
  · unfold normalize_angle
    split_ifs with hgt
    · exact ⟨nn + 1, by push_cast; ring⟩
    · exact ⟨nn, rfl⟩

/-- C7: every angle produced by the root solver is normalized by the
nonlinear-correction path into (-pi, pi], shifted by an integer multiple
of 2*pi; consequently any angle actually returned by
get_des_data_corrected2 lies in (-pi, pi]. -/
theorem C7_angle_normalization (theta : ℝ) (L : Learner) (g : ℝ) (solver : Solver)
    (x_des z_des : List ℝ) (r : ℝ × ℝ × ℝ × ℝ) :
    (normalize_angle theta ∈ Set.Ioc (-Real.pi) Real.pi ∧
     ∃ k : ℤ, normalize_angle theta = theta - 2 * Real.pi * (k : ℝ)) ∧
    (get_des_data_corrected2 L g solver x_des z_des = some r →
     r.2.1 ∈ Set.Ioc (-Real.pi) Real.pi) := by
  refine ⟨normalize_angle_spec theta, ?_⟩
  intro h
  unfold get_des_data_corrected2 at h
  rcases hp : read_pvajs x_des z_des with _ | pv
  · rw [hp] at h; simp at h
  · rw [hp] at h
    obtain ⟨p_des, v_des, a_des, j_des, s_des⟩ := pv
    simp only [bind, Option.bind_eq_some, Option.pure_def, Option.some.injEq] at h
    obtain ⟨pv2, hpv2, tvta, htv, heq⟩ := h
    rw [← heq]
    exact (normalize_angle_spec _).1

/-- C10: get_u depends neither on the current-state argument nor on the
PD object; two controllers equal in model, trajectory polynomials and
learner give identical commands for any pair of states. -/
theorem C10_feedforward_noninterference (c1 c2 : FlatController) (solver : Solver)
    (x1 x2 : X6) (t : ℝ)
    (hm : c1.model = c2.model) (hx : c1.x_polys = c2.x_polys)
    (hz : c1.z_polys = c2.z_polys) (hl : c1.learner = c2.learner) :
    get_u c1 solver x1 t = get_u c2 solver x2 t := by
  obtain ⟨m1, xp1, zp1, l1, pd1⟩ := c1
  obtain ⟨m2, xp2, zp2, l2, pd2⟩ := c2
  simp only at hm hx hz hl
  subst hm hx hz hl
  rfl

/-- Witness for C10 at concrete inputs: two controllers differing only in
their PD gains, evaluated at two different states. -/
theorem C10_witness :
    get_u ⟨⟨1, 1, 1⟩, [[0]], [[0]], none, PD.make 10 10⟩ idSolver (fun _ => 0) 0 =
    get_u ⟨⟨1, 1, 1⟩, [[0]], [[0]], none, PD.make 1 2⟩ idSolver (fun _ => 1) 0 :=
  C10_feedforward_noninterference _ _ _ _ _ _ rfl rfl rfl rfl

/-- C5 (amended): the nominal path runs exactly when the learner is
absent or present without trained weights (w is None); the
nonlinear-correction path runs exactly when a learner with trained
weights is supplied, matching line 102. -/
theorem C5_dispatch_amended (c : FlatController) (solver : Solver)
    (x_des z_des : List ℝ) :
    ((c.learner = none ∨ ∃ L, c.learner = some L ∧ L.w = none) →
      get_des_data c solver x_des z_des = get_des_data_nominal c.model.g x_des z_des) ∧
    (∀ L, c.learner = some L → L.w.isSome = true →
      get_des_data c solver x_des z_des =
        get_des_data_corrected2 L c.model.g solver x_des z_des) := by
  constructor
  · rintro (h | ⟨L, hL, hw⟩)
    · simp [get_des_data, h]
    · simp [get_des_data, hL, hw]
  · intro L hL hw
    simp [get_des_data, hL, hw]

/-- Witness for C5 at a concrete learner-free controller. -/
theorem C5_dispatch_witness :
    get_des_data (FlatController.make ⟨1, 1, 1⟩ [0] [0] none) idSolver [] [] =
      get_des_data_nominal 1 [] [] :=
  (C5_dispatch_amended _ _ _ _).1 (Or.inl rfl)

/-- Counterexample to C5 as stated: a learner object is supplied (not
absent), yet because its weights are None the dispatch still runs the
nominal computation. -/
theorem C5_counterexample :
    (FlatController.make ⟨1, 1, 1⟩ [0] [0] (some zeroLearnerNoW)).learner ≠ none ∧
    get_des_data (FlatController.make ⟨1, 1, 1⟩ [0] [0] (some zeroLearnerNoW))
        idSolver [0, 0, 0, 0, 0] [0, 0, 0, 0, 0] =
      get_des_data_nominal 1 [0, 0, 0, 0, 0] [0, 0, 0, 0, 0] := by
  exact ⟨by simp [FlatController.make], rfl⟩

/-- Helper: the nominal-path reads fail on the 4-element default z_des. -/
lemma read_ajs_default (xd : List ℝ) : read_ajs xd default_z_des = none := by
  unfold read_ajs default_z_des
  rcases h2 : xd[2]? with _ | a <;> simp [h2]

/-- Helper: the corrected2-path reads fail on the 4-element default z_des. -/
lemma read_pvajs_default (xd : List ℝ) : read_pvajs xd default_z_des = none := by
  unfold read_pvajs default_z_des
  rcases h0 : xd[0]? with _ | a <;> simp [h0]

/-- Helper: get_des_data_nominal fails on the default z_des. -/
lemma nominal_default (g : ℝ) (xd : List ℝ) :
    get_des_data_nominal g xd default_z_des = none := by
  unfold get_des_data_nominal
  rw [read_ajs_default]
  rfl

/-- Helper: get_des_data_corrected2 fails on the default z_des. -/
lemma corrected2_default (L : Learner) (g : ℝ) (solver : Solver) (xd : List ℝ) :
    get_des_data_corrected2 L g solver xd default_z_des = none := by
  unfold get_des_data_corrected2
  rw [read_pvajs_default]
  rfl

/-- Helper: get_des_data_corrected fails on the default z_des. -/
lemma corrected_default (L : Learner) (g : ℝ) (xd : List ℝ) :
    get_des_data_corrected L g xd default_z_des = none := by
  unfold get_des_data_corrected default_z_des
  rcases h1 : xd[1]? with _ | a <;> simp [h1]

/-- C9: with the vertical-axis argument omitted (the 4-element default
z_des = np.zeros(4)), every flat-map entry point reads z_des[4] out of
range and fails, for every x_des, learner and dispatch configuration;
with an explicit 5-element z_des the nominal path does return a value. -/
theorem C9_default_vertical_argument (x_des : List ℝ) (L : Learner)
    (c : FlatController) (solver : Solver) (g : ℝ) :
    get_des_data_nominal g x_des default_z_des = none ∧
    get_des_data_corrected L g x_des default_z_des = none ∧
    get_des_data_corrected2 L g solver x_des default_z_des = none ∧
    get_des_data c solver x_des default_z_des = none ∧
    ∃ r, get_des_data_nominal 1 [0, 0, 0, 0, 0] [0, 0, 0, 0, 0] = some r := by
  refine ⟨nominal_default g x_des, corrected_default L g x_des,
    corrected2_default L g solver x_des, ?_, ⟨nominal_core 1 (0, 0) (0, 0) (0, 0), rfl⟩⟩
  unfold get_des_data
  cases hL : c.learner with
  | none => exact nominal_default _ _
  | some L' =>
      by_cases hw : L'.w.isSome <;>
        simp [hw, nominal_default, corrected2_default]

/-- Witness for C1 at a concrete hover state with unit gravity. -/
theorem C1_witness :
    spec_acc_vec 1 ((0:ℝ), (0:ℝ)) ≠ (0, 0) ∧
    get_des_data_nominal 1 [0, 0, 0, 0, 0] [0, 0, 0, 0, 0] =
      some (norm2 (spec_acc_vec 1 (0, 0)), spec_angle 1 (0, 0),
            spec_angle_rate 1 (0, 0) (0, 0), spec_angle_accel 1 (0, 0) (0, 0) (0, 0)) := by
  have h : spec_acc_vec 1 ((0:ℝ), (0:ℝ)) ≠ (0, 0) := by
    simp [spec_acc_vec, Prod.ext_iff]
  exact ⟨h, C1_nominal_flat_map 1 0 0 0 0 0 0 0 0 0 0 h⟩

/-- C2: with zero jerk, zero snap and zero desired acceleration the
nominal path returns (thrust_norm, angle, angle_rate, angle_accel)
= (g, 0, 0, 0); and for the constant-horizontal-velocity trajectory
x(t) = t, z(t) = 0 the synthesized command is (m * g, 0) at every time. -/
theorem C2_hover_and_constant_velocity (M : DynamicsModel) (xp zp : List (List ℝ))
    (pdv : PD) (solver : Solver) (x0 x1 z0 z1 : ℝ) (x : X6) (t : ℝ) (hg : 0 < M.g) :
    get_des_data ⟨M, xp, zp, none, pdv⟩ solver [x0, x1, 0, 0, 0] [z0, z1, 0, 0, 0] =
      some (M.g, 0, 0, 0) ∧
    get_u (FlatController.make M [1, 0] [0] none) solver x t = some (M.m * M.g, 0) := by
  have hcore : nominal_core M.g (0 : Vec2) (0 : Vec2) (0 : Vec2) = (M.g, 0, 0, 0) := by
    unfold nominal_core compute_theta solve_for_scalar dot2 mat2_mulvec cross_mat norm2
    norm_num [Real.sqrt_sq hg.le, Real.arcsin_zero]
  have hxp : make_polys [(1:ℝ), 0] = [[1, 0], [1], [0], [0], [0]] := by
    norm_num [make_polys, polyder, List.range_succ]
  have hzp : make_polys [(0:ℝ)] = [[0], [0], [0], [0], [0]] := by
    norm_num [make_polys, polyder]
  constructor
  · show get_des_data_nominal M.g [x0, x1, 0, 0, 0] [z0, z1, 0, 0, 0] = _
    unfold get_des_data_nominal read_ajs
    simp [hcore]
  · unfold get_u get_des FlatController.make
    rw [hxp, hzp]
    show (get_des_data_nominal M.g _ _).map _ = _
    norm_num [polyval]
    unfold get_des_data_nominal read_ajs
    simp [hcore]
    exact ⟨M.g, 0, 0, 0, ⟨rfl, rfl⟩, Or.inl rfl, Or.inr rfl⟩

/-- Witness for C2 at concrete dynamics (m = 2, inertia = 3, g = 1). -/
theorem C2_witness :
    get_u (FlatController.make ⟨2, 3, 1⟩ [1, 0] [0] none) idSolver (fun _ => 0) 5 =
      some (2 * 1, 0) :=
  (C2_hover_and_constant_velocity ⟨2, 3, 1⟩ [] [] (PD.make 10 10) idSolver 0 0 0 0
    (fun _ => 0) 5 (by norm_num)).2

/-- C4 evaluation: at a desired state whose acceleration vector is the
near-zero (0, 1/1000) (vertical acceleration -0.999 against gravity 1),
the nominal path does not fault: it silently returns
(thrust_norm = 1/1000, angle = 0, angle_rate = 0, angle_accel = 0).
The source has no degeneracy check at lines 109-110. -/
theorem C4_near_zero_thrust_silent :
    get_des_data_nominal 1 [0, 0, 0, 0, 0] [0, 0, -999/1000, 0, 0] =
      some (1/1000, 0, 0, 0) := by
  have hs : Real.sqrt (1/1000000 : ℝ) = 1/1000 := by
    rw [show (1/1000000 : ℝ) = (1/1000 : ℝ) ^ 2 by norm_num]
    exact Real.sqrt_sq (by norm_num)
  unfold get_des_data_nominal read_ajs nominal_core compute_theta solve_for_scalar
    dot2 mat2_mulvec cross_mat norm2
  norm_num [hs, Real.arcsin_zero]

/-- Componentwise sum of 2x2 matrices (the += on line 66). -/
def mat2_add (A B : Mat2) : Mat2 :=
  ((A.1.1 + B.1.1, A.1.2 + B.1.2), (A.2.1 + B.2.1, A.2.2 + B.2.2))

/-- Base rigid-body Jacobian of the force balance with respect to
(u, theta): columns z and u * zp (line 65). -/
noncomputable def base_jacobian (u theta : ℝ) : Mat2 :=
  ((-Real.sin theta, u * (-Real.cos theta)),
   (Real.cos theta, u * (-Real.sin theta)))

/-- Learner contribution to the sensitivity Jacobian: columns dfm_du and
dfm_dtheta (line 66). -/
def learner_jacobian (L : Learner) (x_t : X6) (u_t : Vec2) : Mat2 :=
  (((L.get_deriv_u x_t u_t).1, (L.get_deriv_theta x_t u_t).1),
   ((L.get_deriv_u x_t u_t).2, (L.get_deriv_theta x_t u_t).2))

/-- C8: the sensitivity Jacobian is formed as the base rigid-body
Jacobian (columns z and u * zp) plus the learner's Jacobian
contribution, and whenever that 2x2 matrix is singular (determinant
zero, i.e. rank < 2) compare_methods faults (returns none) before
solving the linear systems, so no angle_rate/angle_accel is produced
from a singular Jacobian. -/
theorem C8_singular_jacobian (L : Learner) (g u theta : ℝ)
    (pos vel acc jerk snap : Vec2) :
    dfdx_matrix L u theta (![pos.1, pos.2, theta, vel.1, vel.2, 0]) (u, 0) =
      mat2_add (base_jacobian u theta)
        (learner_jacobian L (![pos.1, pos.2, theta, vel.1, vel.2, 0]) (u, 0)) ∧
    (det2 (dfdx_matrix L u theta (![pos.1, pos.2, theta, vel.1, vel.2, 0]) (u, 0)) = 0 →
      compare_methods L g u theta pos vel acc jerk snap = none) := by
  constructor
  · unfold dfdx_matrix mat2_add base_jacobian learner_jacobian
    rfl
  · intro hdet
    unfold compare_methods
    split_ifs with h1 h2
    · exact absurd hdet h2
    · rfl
    · rfl

/-- Witness for C8: the synthetic rank-1 case of spec section 8
(u = 0, theta = 0, zero learner) makes the determinant vanish and the
computation fault. -/
theorem C8_witness :
    det2 (dfdx_matrix zeroLearner 0 0 (![0, 0, 0, 0, 0, 0]) (0, 0)) = 0 ∧
    compare_methods zeroLearner 1 0 0 (0, 0) (0, 0) (0, -1) (0, 0) (0, 0) = none := by
  have hdet : det2 (dfdx_matrix zeroLearner 0 0 (![(0:ℝ), 0, 0, 0, 0, 0]) (0, 0)) = 0 := by
    norm_num [det2, dfdx_matrix, zeroLearner]
  exact ⟨hdet,
    (C8_singular_jacobian zeroLearner 1 0 0 (0, 0) (0, 0) (0, -1) (0, 0) (0, 0)).2 hdet⟩

/-- Helper: normalizing a zero angle gives zero. -/
lemma normalize_angle_zero : normalize_angle 0 = 0 := by
  unfold normalize_angle
  rw [if_neg]
  · norm_num
  · norm_num [Real.pi_pos.le]

/-- Helper: compare_methods at the zero learner with u = 1, theta = 0,
g = 1 and zero desired state passes both assertions and returns (0, 0). -/
lemma compare_methods_concrete :
    compare_methods zeroLearner 1 1 0 (0 : Vec2) (0 : Vec2) (0 : Vec2) (0 : Vec2)
      (0 : Vec2) = some (0, 0) := by
  have hres : cm_residual zeroLearner 1 1 0 (0 : Vec2) (0 : Vec2) (0 : Vec2) = 0 := by
    unfold cm_residual zeroLearner
    norm_num [Prod.ext_iff]
  have hdet : det2 (dfdx_matrix zeroLearner 1 0 (![(0:ℝ), 0, 0, 0, 0, 0]) (1, 0)) = 1 := by
    norm_num [det2, dfdx_matrix, zeroLearner]
  have hders : cm_derivatives zeroLearner 1 0 (0 : Vec2) (0 : Vec2) (0 : Vec2) (0 : Vec2)
      (![(0:ℝ), 0, 0, 0, 0, 0]) = 0 := by
    unfold cm_derivatives linalg_solve2 det2 dfdx_matrix dot4 quad4 zeroLearner
    norm_num [Fin.sum_univ_four, Prod.ext_iff]
  unfold compare_methods
  norm_num [hres, hdet, hders]

/-- Helper: full evaluation of the nonlinear-correction path with a
solver that reports failure and returns the iterate (1, 0): the path
still produces some (1, 0, 0, 0). -/
lemma corrected2_concrete_eval :
    get_des_data_corrected2 zeroLearner 1 failSolver [0, 0, 0, 0, 0] [0, 0, 0, 0, 0] =
      some (1, 0, 0, 0) := by
  unfold get_des_data_corrected2
  rw [show read_pvajs [(0:ℝ), 0, 0, 0, 0] [(0:ℝ), 0, 0, 0, 0] =
    some ((0, 0), (0, 0), (0, 0), (0, 0), (0, 0)) from rfl]
  simp [failSolver, normalize_angle_zero, compare_methods_concrete]

/-- Solver that reports success with the iterate (1, 0), used to compare
against failSolver. -/
def okSolver : Solver := fun _ _ => ⟨true, (1, 0)⟩

/-- C6 (amended): non-convergence is reported (lines 208-210 print and
block for the operator exactly when sol.success is false), but the
returned value of the nonlinear-correction path depends only on the
solver's iterate sol.x, never on the success flag: a non-converged solve
still yields a (thrust_norm, angle, angle_rate, angle_accel) computed
from sol.x, exactly as a converged one. -/
theorem C6_nonconvergence_reported_but_result_fabricated (L : Learner) (g : ℝ)
    (s1 s2 : Solver) (x_des z_des : List ℝ)
    (hx : ∀ f x0, (s1 f x0).x = (s2 f x0).x) :
    (∀ sol : RootResult, sol.success = false → root_failure_reported sol = true) ∧
    get_des_data_corrected2 L g s1 x_des z_des =
      get_des_data_corrected2 L g s2 x_des z_des := by
  constructor
  · intro sol hs
    unfold root_failure_reported
    rw [hs]
    rfl
  · unfold get_des_data_corrected2
    simp only [hx]

/-- Witness for C6 at concrete inputs: a failing and a succeeding solver
with the same iterate produce the same output. -/
theorem C6_witness :
    root_failure_reported ⟨false, (1, 0)⟩ = true ∧
    get_des_data_corrected2 zeroLearner 1 failSolver [0, 0, 0, 0, 0] [0, 0, 0, 0, 0] =
      get_des_data_corrected2 zeroLearner 1 okSolver [0, 0, 0, 0, 0] [0, 0, 0, 0, 0] := by
  have h := C6_nonconvergence_reported_but_result_fabricated zeroLearner 1 failSolver
    okSolver [0, 0, 0, 0, 0] [0, 0, 0, 0, 0] (fun f x0 => rfl)
  exact ⟨h.1 ⟨false, (1, 0)⟩ rfl, h.2⟩

/-- Counterexample to C6 as stated: with a solver that reports
non-convergence (so the failure is printed and input() blocks), the core
nonetheless proceeds after the operator responds and returns a concrete
(thrust_norm, angle, angle_rate, angle_accel) = (1, 0, 0, 0) built from
the solver's iterate, i.e. it does fabricate a result. -/
theorem C6_counterexample :
    root_failure_reported (failSolver (fun _ => (0, 0)) (0, 0)) = true ∧
    get_des_data_corrected2 zeroLearner 1 failSolver [0, 0, 0, 0, 0] [0, 0, 0, 0, 0] =
      some (1, 0, 0, 0) :=
  ⟨rfl, corrected2_concrete_eval⟩

/-- Witness for C7 at a concrete run of the nonlinear-correction path. -/
theorem C7_witness :
    get_des_data_corrected2 zeroLearner 1 failSolver [0, 0, 0, 0, 0] [0, 0, 0, 0, 0] =
      some (1, 0, 0, 0) ∧
    ((1:ℝ), (0:ℝ), (0:ℝ), (0:ℝ)).2.1 ∈ Set.Ioc (-Real.pi) Real.pi :=
  ⟨corrected2_concrete_eval,
   (C7_angle_normalization 0 zeroLearner 1 failSolver [0, 0, 0, 0, 0] [0, 0, 0, 0, 0]
     (1, 0, 0, 0)).2 corrected2_concrete_eval⟩

/-- C3 (amended): for every desired state whose vertical acceleration,
jerk and snap are zero (the shortcut reads only the horizontal axis),
the thrust and torque of the general path (nominal flat-map recovery
followed by thrust = m * a_norm, torque = I * angle_accel, as in get_u)
equal the closed-form shortcut _compute exactly. -/
theorem C3_shortcut_equivalence_amended (m I g x0 x1 a j s z0 z1 : ℝ) (hg : 0 < g) :
    (get_des_data_nominal g [x0, x1, a, j, s] [z0, z1, 0, 0, 0]).map
        (fun r => (m * r.1, I * r.2.2.2)) = _compute m I g [x0, x1, a, j, s] := by
  have hpos : (0:ℝ) < a ^ 2 + g ^ 2 := by positivity
  have hn : Real.sqrt (a ^ 2 + g ^ 2) ≠ 0 := by positivity
  have h2 : Real.sqrt (a ^ 2 + g ^ 2) ^ 2 = a ^ 2 + g ^ 2 := Real.sq_sqrt hpos.le
  show some (m * (nominal_core g (a, 0) (j, 0) (s, 0)).1,
             I * (nominal_core g (a, 0) (j, 0) (s, 0)).2.2.2) =
       some (m * Real.sqrt (g ^ 2 + a ^ 2),
             I * (-a ^ 2 * s * g - s * g ^ 3 + 2 * a * j ^ 2 * g) / (a ^ 2 + g ^ 2) ^ 2)
  have hfst : (nominal_core g (a, 0) (j, 0) (s, 0)).1 = Real.sqrt (a ^ 2 + g ^ 2) := by
    show norm2 (a + 0, 0 + g) = Real.sqrt (a ^ 2 + g ^ 2)
    unfold norm2
    norm_num
  have hta : (nominal_core g (a, 0) (j, 0) (s, 0)).2.2.2 =
      (-a ^ 2 * s * g - s * g ^ 3 + 2 * a * j ^ 2 * g) / (a ^ 2 + g ^ 2) ^ 2 := by
    unfold nominal_core compute_theta solve_for_scalar dot2 mat2_mulvec cross_mat norm2
    simp only [add_zero, zero_add]
    set n := Real.sqrt (a ^ 2 + g ^ 2) with hndef
    transitivity (-s * g * n ^ 2 + 2 * a * j ^ 2 * g) / n ^ 4
    · field_simp
      ring
    · rw [show n ^ 4 = (n ^ 2) ^ 2 by ring, h2]
      ring
  rw [Option.some_inj, Prod.mk.injEq]
  constructor
  · rw [hfst, show (g:ℝ) ^ 2 + a ^ 2 = a ^ 2 + g ^ 2 by ring]
  · rw [hta]
    ring

/-- Witness for C3 at concrete values m = I = g = a = j = s = 1. -/
theorem C3_witness :
    (get_des_data_nominal 1 [0, 0, 1, 1, 1] [0, 0, 0, 0, 0]).map
        (fun r => (1 * r.1, 1 * r.2.2.2)) = _compute 1 1 1 [0, 0, 1, 1, 1] :=
  C3_shortcut_equivalence_amended 1 1 1 0 0 1 1 1 0 0 (by norm_num)

/-- Counterexample to C3 as stated: a smooth polynomial trajectory with
nonzero vertical acceleration (z(t) = t^2/2, x arbitrary flat) gives a
general-path thrust m * a_norm = 2 but a shortcut thrust
m * sqrt(g^2 + a_x^2) = 1 (with m = I = g = 1), so the two paths are not
equal on every smooth trajectory. -/
theorem C3_counterexample :
    (get_des_data_nominal 1 [0, 0, 0, 0, 0] [0, 0, 1, 0, 0]).map (fun r => 1 * r.1) =
      some 2 ∧
    (_compute 1 1 1 [0, 0, 0, 0, 0]).map (fun p => p.1) = some 1 ∧
    (2 : ℝ) ≠ 1 := by
  refine ⟨?_, ?_, by norm_num⟩
  · have hs : Real.sqrt (4 : ℝ) = 2 := by
      rw [show (4:ℝ) = 2 ^ 2 by norm_num]
      exact Real.sqrt_sq (by norm_num)
    show some (1 * (nominal_core 1 (0, 1) (0, 0) (0, 0)).1) = some 2
    have : (nominal_core 1 (0, 1) (0, 0) (0, 0)).1 = Real.sqrt ((0 + 0) ^ 2 + (1 + 1) ^ 2) := rfl
    rw [this, show ((0:ℝ) + 0) ^ 2 + ((1:ℝ) + 1) ^ 2 = 4 by norm_num, hs]
    norm_num
  · show some ((1:ℝ) * Real.sqrt (1 ^ 2 + 0 ^ 2)) = some 1
    norm_num
